import Mathlib

/-!
Verification of the `gpu-scratch` program (`src/main.rs`): a shallow
embedding of the wgpu-level operations the program performs.  GPU
resources created through a device are recorded in the device state;
command encoding is modelled as a list of encoded commands; the
program driver `real_main` is a function of an environment describing
the outcomes of the asynchronous GPU requests (adapter, device, polls,
buffer mapping).
-/

namespace GpuScratch

/-- Buffer usage capability set, mirroring `wgpu::BufferUsages` restricted
to the flags this program uses. -/
structure BufferUsages where
  map_read : Bool
  copy_dst : Bool
  storage : Bool
  copy_src : Bool
deriving DecidableEq, Repr

def BufferUsages.NONE : BufferUsages :=
  ⟨false, false, false, false⟩

def BufferUsages.MAP_READ : BufferUsages :=
  ⟨true, false, false, false⟩

def BufferUsages.COPY_DST : BufferUsages :=
  ⟨false, true, false, false⟩

def BufferUsages.STORAGE : BufferUsages :=
  ⟨false, false, true, false⟩

def BufferUsages.COPY_SRC : BufferUsages :=
  ⟨false, false, false, true⟩

/-- Bitwise-or of two usage sets (the `|` operator on `wgpu::BufferUsages`). -/
def BufferUsages.union (a b : BufferUsages) : BufferUsages :=
  ⟨a.map_read || b.map_read, a.copy_dst || b.copy_dst,
   a.storage || b.storage, a.copy_src || b.copy_src⟩

/-- Mirrors `wgpu::BufferDescriptor`. -/
structure BufferDescriptor where
  label : Option String
  size : Nat
  usage : BufferUsages
  mapped_at_creation : Bool
deriving DecidableEq, Repr

/-- A created GPU buffer: its descriptor data plus the id the device
assigned to it. -/
structure Buffer where
  id : Nat
  label : Option String
  size : Nat
  usage : BufferUsages
  mapped_at_creation : Bool
deriving DecidableEq, Repr

/-- Mirrors `wgpu::ShaderStages` restricted to the stages named in the
program. -/
structure ShaderStages where
  vertex : Bool
  fragment : Bool
  compute : Bool
deriving DecidableEq, Repr

def ShaderStages.COMPUTE : ShaderStages :=
  ⟨false, false, true⟩

/-- Mirrors `wgpu::BufferBindingType`. -/
inductive BufferBindingType
  | Uniform
  | Storage (read_only : Bool)
deriving DecidableEq, Repr

/-- Mirrors `wgpu::BindingType` restricted to buffer bindings. -/
inductive BindingType
  | Buffer (ty : BufferBindingType) (has_dynamic_offset : Bool)
      (min_binding_size : Option Nat)
deriving DecidableEq, Repr

/-- Mirrors `wgpu::BindGroupLayoutEntry`. -/
structure BindGroupLayoutEntry where
  binding : Nat
  count : Option Nat
  visibility : ShaderStages
  ty : BindingType
deriving DecidableEq, Repr

/-- Mirrors `wgpu::BindGroupLayoutDescriptor`. -/
structure BindGroupLayoutDescriptor where
  label : Option String
  entries : List BindGroupLayoutEntry
deriving DecidableEq, Repr

/-- Mirrors `wgpu::ShaderModuleDescriptor` (WGSL source carried as text). -/
structure ShaderModuleDescriptor where
  label : Option String
  source : String
deriving DecidableEq, Repr

/-- Mirrors `wgpu::CommandEncoderDescriptor`. -/
structure CommandEncoderDescriptor where
  label : Option String
deriving DecidableEq, Repr

/-- A compiled shader module handle. -/
structure ShaderModule where
  id : Nat
  label : Option String
  source : String
deriving DecidableEq, Repr

/-- A created bind-group layout handle. -/
structure BindGroupLayout where
  id : Nat
  label : Option String
  entries : List BindGroupLayoutEntry
deriving DecidableEq, Repr

/-- Mirrors `wgpu::PipelineLayoutDescriptor`; layouts are referenced by id. -/
structure PipelineLayoutDescriptor where
  label : Option String
  bind_group_layouts : List Nat
  push_constant_ranges : List Unit
deriving DecidableEq, Repr

/-- A created pipeline layout handle. -/
structure PipelineLayout where
  id : Nat
  label : Option String
  bind_group_layouts : List Nat
deriving DecidableEq, Repr

/-- Mirrors `wgpu::ComputePipelineDescriptor`; the module and layout are
referenced by id, and compilation options / cache are defaults. -/
structure ComputePipelineDescriptor where
  label : Option String
  layout : Option Nat
  module : Nat
  entry_point : Option String
deriving DecidableEq, Repr

/-- A created compute pipeline handle. -/
structure ComputePipeline where
  id : Nat
  label : Option String
  layout : Option Nat
  module : Nat
  entry_point : Option String
deriving DecidableEq, Repr

/-- Mirrors `wgpu::BindingResource` restricted to entire-buffer bindings. -/
inductive BindingResource
  | bufferBinding (buffer : Nat) (offset : Nat) (size : Option Nat)
deriving DecidableEq, Repr

/-- `Buffer::as_entire_binding`: the whole buffer at offset 0. -/
def Buffer.as_entire_binding (b : Buffer) : BindingResource :=
  BindingResource.bufferBinding b.id 0 none

/-- Mirrors `wgpu::BindGroupEntry`. -/
structure BindGroupEntry where
  binding : Nat
  resource : BindingResource
deriving DecidableEq, Repr

/-- Mirrors `wgpu::BindGroupDescriptor`; the layout is referenced by id. -/
structure BindGroupDescriptor where
  label : Option String
  layout : Nat
  entries : List BindGroupEntry
deriving DecidableEq, Repr

/-- A created bind group handle. -/
structure BindGroup where
  id : Nat
  label : Option String
  layout : Nat
  entries : List BindGroupEntry
deriving DecidableEq, Repr

/-- A GPU resource created through the device. -/
inductive Resource
  | buffer (b : Buffer)
  | shaderModule (m : ShaderModule)
  | bindGroupLayout (l : BindGroupLayout)
  | pipelineLayout (l : PipelineLayout)
  | computePipeline (p : ComputePipeline)
  | bindGroup (g : BindGroup)
deriving DecidableEq, Repr

/-- The logical GPU device: an id, a fresh-id counter and the list of
resources created through it, in creation order. -/
structure Device where
  id : Nat
  nextId : Nat
  resources : List Resource
deriving DecidableEq, Repr

def Device.fresh : Device :=
  ⟨0, 0, []⟩

/-- The queue associated with a device. -/
structure Queue where
  device_id : Nat
deriving DecidableEq, Repr

def Device.create_buffer (d : Device) (desc : BufferDescriptor) :
    Buffer × Device :=
  let b : Buffer :=
    ⟨d.nextId, desc.label, desc.size, desc.usage, desc.mapped_at_creation⟩
  (b, ⟨d.id, d.nextId + 1, d.resources ++ [Resource.buffer b]⟩)

def Device.create_shader_module (d : Device) (desc : ShaderModuleDescriptor) :
    ShaderModule × Device :=
  let m : ShaderModule := ⟨d.nextId, desc.label, desc.source⟩
  (m, ⟨d.id, d.nextId + 1, d.resources ++ [Resource.shaderModule m]⟩)

def Device.create_bind_group_layout (d : Device)
    (desc : BindGroupLayoutDescriptor) : BindGroupLayout × Device :=
  let l : BindGroupLayout := ⟨d.nextId, desc.label, desc.entries⟩
  (l, ⟨d.id, d.nextId + 1, d.resources ++ [Resource.bindGroupLayout l]⟩)

def Device.create_pipeline_layout (d : Device)
    (desc : PipelineLayoutDescriptor) : PipelineLayout × Device :=
  let l : PipelineLayout := ⟨d.nextId, desc.label, desc.bind_group_layouts⟩
  (l, ⟨d.id, d.nextId + 1, d.resources ++ [Resource.pipelineLayout l]⟩)

def Device.create_compute_pipeline (d : Device)
    (desc : ComputePipelineDescriptor) : ComputePipeline × Device :=
  let p : ComputePipeline :=
    ⟨d.nextId, desc.label, desc.layout, desc.module, desc.entry_point⟩
  (p, ⟨d.id, d.nextId + 1, d.resources ++ [Resource.computePipeline p]⟩)

def Device.create_bind_group (d : Device) (desc : BindGroupDescriptor) :
    BindGroup × Device :=
  let g : BindGroup := ⟨d.nextId, desc.label, desc.layout, desc.entries⟩
  (g, ⟨d.id, d.nextId + 1, d.resources ++ [Resource.bindGroup g]⟩)

/-- A command recorded inside a compute pass. -/
inductive PassCmd
  | setPipeline (pipeline : Nat)
  | setBindGroup (index : Nat) (group : Nat) (offsets : List Nat)
  | dispatchWorkgroups (x y z : Nat)
deriving DecidableEq, Repr

/-- A command recorded on the command encoder.  A compute pass appears as
one command holding its recorded sub-commands: the underlying API only
admits it onto the encoder once the pass has ended. -/
inductive EncodedCmd
  | computePass (label : Option String) (cmds : List PassCmd)
  | copyBufferToBuffer (source : Nat) (source_offset : Nat)
      (destination : Nat) (destination_offset : Nat) (copy_size : Nat)
deriving DecidableEq, Repr

/-- Mirrors `wgpu::ComputePassDescriptor` (no timestamp writes modelled;
the program uses the default). -/
structure ComputePassDescriptor where
  label : Option String
deriving DecidableEq, Repr

def ComputePassDescriptor.default : ComputePassDescriptor :=
  ⟨none⟩

/-- An open compute pass accumulating commands. -/
structure ComputePass where
  label : Option String
  cmds : List PassCmd
deriving DecidableEq, Repr

/-- A command encoder accumulating encoded commands. -/
structure CommandEncoder where
  label : Option String
  cmds : List EncodedCmd
deriving DecidableEq, Repr

def Device.create_command_encoder (_d : Device)
    (desc : CommandEncoderDescriptor) : CommandEncoder :=
  ⟨desc.label, []⟩

def CommandEncoder.begin_compute_pass (_e : CommandEncoder)
    (desc : ComputePassDescriptor) : ComputePass :=
  ⟨desc.label, []⟩

def ComputePass.set_pipeline (p : ComputePass) (pipeline : ComputePipeline) :
    ComputePass :=
  ⟨p.label, p.cmds ++ [PassCmd.setPipeline pipeline.id]⟩

def ComputePass.set_bind_group (p : ComputePass) (index : Nat)
    (group : BindGroup) (offsets : List Nat) : ComputePass :=
  ⟨p.label, p.cmds ++ [PassCmd.setBindGroup index group.id offsets]⟩

def ComputePass.dispatch_workgroups (p : ComputePass) (x y z : Nat) :
    ComputePass :=
  ⟨p.label, p.cmds ++ [PassCmd.dispatchWorkgroups x y z]⟩

/-- Ending (dropping) the pass commits it onto the encoder; in the source
this happens when the pass leaves its lexical scope. -/
def CommandEncoder.end_pass (e : CommandEncoder) (p : ComputePass) :
    CommandEncoder :=
  ⟨e.label, e.cmds ++ [EncodedCmd.computePass p.label p.cmds]⟩

def CommandEncoder.copy_buffer_to_buffer (e : CommandEncoder) (source : Buffer)
    (source_offset : Nat) (destination : Buffer) (destination_offset : Nat)
    (copy_size : Nat) : CommandEncoder :=
  ⟨e.label, e.cmds ++ [EncodedCmd.copyBufferToBuffer source.id source_offset
    destination.id destination_offset copy_size]⟩

/-- A finished command buffer: the recorded commands in order. -/
abbrev CommandBuffer : Type :=
  List EncodedCmd

def CommandEncoder.finish (e : CommandEncoder) : CommandBuffer :=
  e.cmds

/-- Modelled from the spec: the compute shader source is a build-time
textual asset (`main.wgsl`) compiled into the binary via `include_str!`;
the file itself is not part of the sources and no claim depends on its
contents, so it is carried as an abstract string constant. -/
def main_wgsl : String :=
  "main.wgsl source"

def SHADER_OPTIONS : ShaderModuleDescriptor :=
  ⟨some "shader-main", main_wgsl⟩

def ENCODER_OPTIONS : CommandEncoderDescriptor :=
  ⟨some "encoder"⟩

def BIND_GROUP_LAYOUT_OPTIONS : BindGroupLayoutDescriptor :=
  ⟨some "bind-group-layout",
   [⟨0, none, ShaderStages.COMPUTE,
     BindingType.Buffer (BufferBindingType.Storage false) false none⟩]⟩

/-- `construct_compute_shader` from `src/main.rs`: creates the intermediate
storage buffer, the shader module, the layouts, the pipeline and the bind
group, records one compute pass (pipeline, bind group, dispatch `(1,0,0)`),
ends the pass, records the copy to `output`, and finishes the encoder.
Device mutation is threaded explicitly. -/
def construct_compute_shader (device : Device) (output : Buffer) :
    CommandBuffer × Device :=
  let step1 := device.create_buffer
    ⟨some "buffer-intermediate", output.size,
     BufferUsages.STORAGE.union BufferUsages.COPY_SRC, false⟩
  let buffer := step1.1
  let step2 := step1.2.create_shader_module SHADER_OPTIONS
  let shader := step2.1
  let step3 := step2.2.create_bind_group_layout BIND_GROUP_LAYOUT_OPTIONS
  let bind_group_layout := step3.1
  let step4 := step3.2.create_pipeline_layout
    ⟨some "pipeline-layout-descriptor", [bind_group_layout.id], []⟩
  let pipeline_layout := step4.1
  let compute_pipeline_options : ComputePipelineDescriptor :=
    ⟨some "compile-pipeline", some pipeline_layout.id, shader.id, none⟩
  let bind_group_options : BindGroupDescriptor :=
    ⟨some "bind-group", bind_group_layout.id,
     [⟨0, buffer.as_entire_binding⟩]⟩
  let encoder := step4.2.create_command_encoder ENCODER_OPTIONS
  let step5 := step4.2.create_compute_pipeline compute_pipeline_options
  let compute_pipeline := step5.1
  let step6 := step5.2.create_bind_group bind_group_options
  let bind_group := step6.1
  let pass := encoder.begin_compute_pass ComputePassDescriptor.default
  let pass := pass.set_pipeline compute_pipeline
  let pass := pass.set_bind_group 0 bind_group []
  let pass := pass.dispatch_workgroups 1 0 0
  let encoder := encoder.end_pass pass
  let encoder := encoder.copy_buffer_to_buffer buffer 0 output 0 output.size
  (encoder.finish, step6.2)

/-- Mirrors the `InitializeError` enum (`thiserror`-derived). -/
inductive InitializeError
  | NoAdapter
  | NoDevice
deriving DecidableEq, Repr

/-- The `Display` text of each variant, from the `thiserror` attributes
`#[error("Unable to find GPU adapter!")]` and
`#[error("Unable to find GPU device!")]`. -/
def InitializeError.display : InitializeError → String
  | .NoAdapter => "Unable to find GPU adapter!"
  | .NoDevice => "Unable to find GPU device!"

/-- Mirrors the `RunError` enum, which is declared with no variants. -/
inductive RunError
deriving DecidableEq

/-- A polling failure (`device.poll` returned an error), carried as its
display text. -/
structure PollError where
  msg : String
deriving DecidableEq, Repr

/-- A buffer-mapping failure delivered to the `map_async` callback,
carried as its display text. -/
structure MapError where
  msg : String
deriving DecidableEq, Repr

/-- The outcomes the GPU runtime hands the program during one run: the
adapter request, the device request, the two polls, and the mapping
result delivered to the callback; `contents` gives the byte at each
index of the mapped output buffer on a successful mapping. -/
structure GpuEnv where
  adapter_result : Except String Unit
  device_result : Except String Unit
  poll_submission : Except PollError Unit
  poll_wait : Except PollError Unit
  map_result : Except MapError Unit
  contents : Nat → Nat

/-- `initialize_gpu` from `src/main.rs`: any errored adapter response
becomes `NoAdapter`, any errored device response becomes `NoDevice`, and
on success the device and its associated queue are returned. -/
def initialize_gpu (env : GpuEnv) : Except InitializeError (Device × Queue) :=
  match env.adapter_result with
  | .error _ => .error InitializeError.NoAdapter
  | .ok _ =>
    match env.device_result with
    | .error _ => .error InitializeError.NoDevice
    | .ok _ => .ok (Device.fresh, ⟨Device.fresh.id⟩)

/-- `queue.submit` with a batch of command buffers returns a submission
index; a single queue in this program starts at index 0. -/
def Queue.submit (_q : Queue) (_cbs : List CommandBuffer) : Nat :=
  0

/-- Rust `{:?}` debug formatting of a byte slice: `[b0, b1, ...]`. -/
def debugFormatBytes (bs : List Nat) : String :=
  "[" ++ String.intercalate ", " (bs.map toString) ++ "]"

/-- A program-exit failure: an initialization error or a poll error,
both propagated out of `real_main` with `?`. -/
inductive MainError
  | init (e : InitializeError)
  | poll (e : PollError)
deriving DecidableEq, Repr

def MainError.display : MainError → String
  | .init e => e.display
  | .poll e => e.msg

/-- Observable result of one program run: the lines printed to standard
output and standard error, the exit result, and the GPU resources that
were allocated through the device during the run. -/
structure RunResult where
  stdout : List String
  stderr : List String
  exit : Except MainError Unit
  allocated : List Resource
deriving Repr

/-- `real_main` from `src/main.rs`: initialize the GPU, create the
48-byte output buffer, record and submit the command buffer, poll for
the submission, print the marker, map the output buffer (the callback
either logs the mapping error to stderr or prints the debug-formatted
mapped bytes, and fires during the final poll), poll once more and
return. -/
def real_main (env : GpuEnv) : RunResult :=
  match initialize_gpu env with
  | .error e => ⟨[], [], .error (MainError.init e), []⟩
  | .ok (device, queue) =>
    let step1 := device.create_buffer
      ⟨some "output-buffer", 12 * 4,
       BufferUsages.MAP_READ.union BufferUsages.COPY_DST, false⟩
    let output := step1.1
    let step2 := construct_compute_shader step1.2 output
    let device := step2.2
    let _index := queue.submit [step2.1]
    match env.poll_submission with
    | .error e => ⟨[], [], .error (MainError.poll e), device.resources⟩
    | .ok _ =>
      match env.map_result with
      | .error err =>
        match env.poll_wait with
        | .error e =>
          ⟨["GPU Completed"], [err.msg], .error (MainError.poll e),
           device.resources⟩
        | .ok _ =>
          ⟨["GPU Completed"], [err.msg], .ok (), device.resources⟩
      | .ok _ =>
        let bytes := (List.range output.size).map (fun i => env.contents i % 256)
        match env.poll_wait with
        | .error e =>
          ⟨["GPU Completed", debugFormatBytes bytes], [],
           .error (MainError.poll e), device.resources⟩
        | .ok _ =>
          ⟨["GPU Completed", debugFormatBytes bytes], [], .ok (),
           device.resources⟩

/-! Observation helpers over command buffers. -/

def EncodedCmd.isPass : EncodedCmd → Bool
  | .computePass _ _ => true
  | _ => false

def EncodedCmd.isCopy : EncodedCmd → Bool
  | .copyBufferToBuffer _ _ _ _ _ => true
  | _ => false

/-- The dispatch commands recorded inside one encoded command. -/
def passDispatches : EncodedCmd → List (Nat × Nat × Nat)
  | .computePass _ cmds =>
    cmds.filterMap fun c =>
      match c with
      | .dispatchWorkgroups x y z => some (x, y, z)
      | _ => none
  | _ => []

/-- All workgroup-dispatch triples recorded in a command buffer, in order. -/
def dispatchesOf (cb : CommandBuffer) : List (Nat × Nat × Nat) :=
  (List.map passDispatches cb).flatten

/-- Total number of workgroups a command buffer launches: the sum of
`x·y·z` over its dispatches. -/
def workgroupsLaunched (cb : CommandBuffer) : Nat :=
  ((dispatchesOf cb).map fun t => t.1 * t.2.1 * t.2.2).sum

def countPasses (cb : CommandBuffer) : Nat :=
  (List.filter EncodedCmd.isPass cb).length

def countCopies (cb : CommandBuffer) : Nat :=
  (List.filter EncodedCmd.isCopy cb).length

/-- The byte lengths of the buffer-to-buffer copies in a command buffer. -/
def copyLengthsOf (cb : CommandBuffer) : List Nat :=
  List.filterMap (fun c =>
    match c with
    | EncodedCmd.copyBufferToBuffer _ _ _ _ n => some n
    | _ => none) cb

/-! Concrete environments used by witnesses and counterexamples. -/

def envNoAdapter : GpuEnv :=
  ⟨.error "no adapter", .ok (), .ok (), .ok (), .ok (), fun _ => 0⟩

def envNoDevice : GpuEnv :=
  ⟨.ok (), .error "device denied", .ok (), .ok (), .ok (), fun _ => 0⟩

def envMapFail : GpuEnv :=
  ⟨.ok (), .ok (), .ok (), .ok (), .error ⟨"mapping failed"⟩, fun _ => 0⟩

def envAllOk : GpuEnv :=
  ⟨.ok (), .ok (), .ok (), .ok (), .ok (), fun i => i⟩

/-- Claim C1: the Command Recorder encodes exactly one dispatch and its
workgroup counts are exactly `(1, 0, 0)`, for every device and output
buffer; consequently the number of workgroups launched is zero and the
shader body never executes. -/
theorem construct_dispatch_is_one_zero_zero (device : Device) (output : Buffer) :
    dispatchesOf (construct_compute_shader device output).1 = [(1, 0, 0)] ∧
    workgroupsLaunched (construct_compute_shader device output).1 = 0 :=
  ⟨rfl, rfl⟩

/-- Claim C3: the command buffer produced by `construct_compute_shader`
contains exactly one compute pass and exactly one buffer-to-buffer copy,
and they occur in that order: the whole buffer is the pass followed by
the copy, so the copy is encoded strictly after the pass has ended. -/
theorem construct_one_pass_then_one_copy (device : Device) (output : Buffer) :
    countPasses (construct_compute_shader device output).1 = 1 ∧
    countCopies (construct_compute_shader device output).1 = 1 ∧
    ∃ label pcmds src soff dst doff n,
      (construct_compute_shader device output).1 =
        [EncodedCmd.computePass label pcmds,
         EncodedCmd.copyBufferToBuffer src soff dst doff n] :=
  ⟨rfl, rfl, ⟨_, _, _, _, _, _, _, rfl⟩⟩

/-- Claim C4: the intermediate buffer created by `construct_compute_shader`
is among the device's resources afterwards, its size equals the output
buffer's size (which is also the length the copy command carries at the
moment it is encoded), and its usage includes storage and copy-source. -/
theorem construct_intermediate_buffer_spec (device : Device) (output : Buffer) :
    ∃ b : Buffer,
      Resource.buffer b ∈ (construct_compute_shader device output).2.resources ∧
      b.label = some "buffer-intermediate" ∧
      b.size = output.size ∧
      b.usage.storage = true ∧
      b.usage.copy_src = true ∧
      ∃ label pcmds,
        (construct_compute_shader device output).1 =
          [EncodedCmd.computePass label pcmds,
           EncodedCmd.copyBufferToBuffer b.id 0 output.id 0 b.size] := by
  refine ⟨⟨device.nextId, some "buffer-intermediate", output.size,
    ⟨false, false, true, true⟩, false⟩, ?_, rfl, rfl, rfl, rfl, ⟨_, _, rfl⟩⟩
  simp [construct_compute_shader, Device.create_buffer,
    Device.create_shader_module, Device.create_bind_group_layout,
    Device.create_pipeline_layout, Device.create_compute_pipeline,
    Device.create_bind_group, BufferUsages.union, BufferUsages.STORAGE,
    BufferUsages.COPY_SRC]

/-- Claim C8: the encoded copy uses source offset 0, destination offset 0
and length `output.size`; for an output buffer of size zero the recorded
copy length is zero (and the Recorder, being a total function, still
produces a command buffer). -/
theorem construct_copy_offsets_and_length (device : Device) (output : Buffer) :
    (∃ label pcmds src,
      (construct_compute_shader device output).1 =
        [EncodedCmd.computePass label pcmds,
         EncodedCmd.copyBufferToBuffer src 0 output.id 0 output.size]) ∧
    (output.size = 0 →
      copyLengthsOf (construct_compute_shader device output).1 = [0]) := by
  refine ⟨⟨_, _, _, rfl⟩, fun h => ?_⟩
  have hc : copyLengthsOf (construct_compute_shader device output).1 =
      [output.size] := rfl
  rw [hc, h]

/-- Witness for C8: at a concrete zero-size output buffer the copy length
recorded is zero. -/
theorem construct_copy_offsets_and_length_witness :
    copyLengthsOf (construct_compute_shader Device.fresh
      ⟨100, some "output-buffer", 0,
       BufferUsages.MAP_READ.union BufferUsages.COPY_DST, false⟩).1 = [0] :=
  (construct_copy_offsets_and_length Device.fresh
    ⟨100, some "output-buffer", 0,
     BufferUsages.MAP_READ.union BufferUsages.COPY_DST, false⟩).2 rfl

/-- Claim C9: the run-phase error enum `RunError` has no variants, and
`construct_compute_shader` is total: for every device and output buffer
it returns a command buffer (and the updated device) with no error
return path. -/
theorem run_error_uninhabited_and_recorder_total :
    (∀ e : RunError, False) ∧
    ∀ (device : Device) (output : Buffer),
      ∃ (cb : CommandBuffer) (d : Device),
        construct_compute_shader device output = (cb, d) := by
  constructor
  · intro e
    cases e
  · intro device output
    exact ⟨_, _, rfl⟩

/-- Claim C10: `initialize_gpu` maps every errored adapter response to
`NoAdapter` and every errored device response to `NoDevice`; its result
is always one of `NoAdapter`, `NoDevice`, or success, and on success the
returned queue is the one associated with the returned device. -/
theorem initialize_gpu_error_mapping (env : GpuEnv) :
    (∀ msg, env.adapter_result = .error msg →
      initialize_gpu env = .error InitializeError.NoAdapter) ∧
    (∀ msg, env.adapter_result = .ok () → env.device_result = .error msg →
      initialize_gpu env = .error InitializeError.NoDevice) ∧
    (∀ d q, initialize_gpu env = .ok (d, q) → q.device_id = d.id) ∧
    (initialize_gpu env = .error InitializeError.NoAdapter ∨
     initialize_gpu env = .error InitializeError.NoDevice ∨
     ∃ d q, initialize_gpu env = .ok (d, q)) := by
  obtain ⟨a, dr, p1, p2, m, c⟩ := env
  refine ⟨?_, ?_, ?_, ?_⟩ <;> cases a <;> cases dr <;>
    simp [initialize_gpu]

/-- Witness for C10: a concrete errored adapter response yields
`NoAdapter`. -/
theorem initialize_gpu_error_mapping_witness :
    initialize_gpu envNoAdapter = .error InitializeError.NoAdapter :=
  (initialize_gpu_error_mapping envNoAdapter).1 "no adapter" rfl

/-- Counterexample for C2 as stated: an environment in which the adapter
and device are obtained and both polls succeed, yet the mapping callback
receives an error, gives a run that exits with success but prints only
the marker line — no byte-sequence line follows it. -/
theorem successful_polls_without_data_line :
    envMapFail.adapter_result = .ok () ∧
    envMapFail.device_result = .ok () ∧
    envMapFail.poll_submission = .ok () ∧
    envMapFail.poll_wait = .ok () ∧
    (real_main envMapFail).exit = .ok () ∧
    ¬ ∃ s, (real_main envMapFail).stdout = ["GPU Completed", s] := by
  refine ⟨rfl, rfl, rfl, rfl, rfl, ?_⟩
  rintro ⟨s, hs⟩
  have h : (real_main envMapFail).stdout = ["GPU Completed"] := rfl
  rw [h] at hs
  exact absurd hs (by simp)

/-- Claim C2 (amended): for every run in which the adapter and device are
obtained, both polls succeed, and the mapping callback receives success,
the program exits with success and prints exactly the marker line
`GPU Completed` followed by one debug-formatted byte-sequence line
covering the 48-byte output buffer, with nothing on standard error. -/
theorem successful_run_output (env : GpuEnv)
    (ha : env.adapter_result = .ok ()) (hd : env.device_result = .ok ())
    (hp1 : env.poll_submission = .ok ()) (hp2 : env.poll_wait = .ok ())
    (hm : env.map_result = .ok ()) :
    (real_main env).exit = .ok () ∧
    (real_main env).stderr = [] ∧
    ∃ bytes : List Nat, bytes.length = 48 ∧
      (real_main env).stdout = ["GPU Completed", debugFormatBytes bytes] := by
  refine ⟨?_, ?_, ⟨(List.range (12 * 4)).map (fun i => env.contents i % 256),
    ?_, ?_⟩⟩ <;>
  simp [real_main, initialize_gpu, Device.create_buffer, ha, hd, hp1, hp2, hm]

/-- Witness for C2: on a concrete all-successful environment the program
exits with success and prints the marker followed by one 48-byte line. -/
theorem successful_run_output_witness :
    (real_main envAllOk).exit = .ok () ∧
    (real_main envAllOk).stderr = [] ∧
    ∃ bytes : List Nat, bytes.length = 48 ∧
      (real_main envAllOk).stdout = ["GPU Completed", debugFormatBytes bytes] :=
  successful_run_output envAllOk rfl rfl rfl rfl rfl

/-- Claim C5: when the adapter request yields no adapter, the program
exits with the `NoAdapter` failure, whose message is
`Unable to find GPU adapter!`, and no GPU resource has been allocated. -/
theorem no_adapter_exit (env : GpuEnv) (msg : String)
    (h : env.adapter_result = .error msg) :
    (real_main env).exit = .error (MainError.init InitializeError.NoAdapter) ∧
    MainError.display (MainError.init InitializeError.NoAdapter) =
      "Unable to find GPU adapter!" ∧
    (real_main env).allocated = [] := by
  refine ⟨?_, rfl, ?_⟩ <;> simp [real_main, initialize_gpu, h]

/-- Witness for C5: a concrete environment whose adapter request errors. -/
theorem no_adapter_exit_witness :
    (real_main envNoAdapter).exit =
      .error (MainError.init InitializeError.NoAdapter) ∧
    MainError.display (MainError.init InitializeError.NoAdapter) =
      "Unable to find GPU adapter!" ∧
    (real_main envNoAdapter).allocated = [] :=
  no_adapter_exit envNoAdapter "no adapter" rfl

/-- Claim C6: when the adapter is obtained but the device request fails,
the program exits with the `NoDevice` failure, whose message is
`Unable to find GPU device!`. -/
theorem no_device_exit (env : GpuEnv) (msg : String)
    (ha : env.adapter_result = .ok ()) (hd : env.device_result = .error msg) :
    (real_main env).exit = .error (MainError.init InitializeError.NoDevice) ∧
    MainError.display (MainError.init InitializeError.NoDevice) =
      "Unable to find GPU device!" := by
  refine ⟨?_, rfl⟩
  simp [real_main, initialize_gpu, ha, hd]

/-- Witness for C6: a concrete environment whose device request errors. -/
theorem no_device_exit_witness :
    (real_main envNoDevice).exit =
      .error (MainError.init InitializeError.NoDevice) ∧
    MainError.display (MainError.init InitializeError.NoDevice) =
      "Unable to find GPU device!" :=
  no_device_exit envNoDevice "device denied" rfl rfl

/-- Claim C7: when the mapping callback receives an error, exactly one
diagnostic line holding the error's display text goes to standard error,
standard output holds only the marker line (no data line), and the
program still exits with success. -/
theorem map_failure_logged_and_swallowed (env : GpuEnv) (e : MapError)
    (ha : env.adapter_result = .ok ()) (hd : env.device_result = .ok ())
    (hp1 : env.poll_submission = .ok ()) (hp2 : env.poll_wait = .ok ())
    (hm : env.map_result = .error e) :
    (real_main env).stderr = [e.msg] ∧
    (real_main env).stdout = ["GPU Completed"] ∧
    (real_main env).exit = .ok () := by
  refine ⟨?_, ?_, ?_⟩ <;>
  simp [real_main, initialize_gpu, ha, hd, hp1, hp2, hm]

/-- Witness for C7: a concrete environment whose mapping callback
receives an error. -/
theorem map_failure_logged_and_swallowed_witness :
    (real_main envMapFail).stderr = ["mapping failed"] ∧
    (real_main envMapFail).stdout = ["GPU Completed"] ∧
    (real_main envMapFail).exit = .ok () :=
  map_failure_logged_and_swallowed envMapFail ⟨"mapping failed"⟩
    rfl rfl rfl rfl rfl

end GpuScratch
